import Mathlib

set_option maxRecDepth 100000

/-!
Shallow embedding of `src/sukd.py` ("Stable Upstream kernel downloader").

Strings are modelled as `List Char` (Python 3 `str` is a sequence of code
points).  Python functions that can raise are modelled with `Option`/`Except`.
Each definition mirrors one function or one code block of the script; the
source line numbers are given in the doc comments.
-/

/-! ## Python string primitives -/

/-- Python `str.strip()` restricted to the ASCII whitespace that occurs in
manifests (space, tab, CR, LF). -/
def pyStrip (s : List Char) : List Char :=
  ((s.dropWhile Char.isWhitespace).reverse.dropWhile Char.isWhitespace).reverse

/-- Worker for `str.split()` (split on whitespace runs, no empty tokens),
with an accumulator holding the current token reversed. -/
def pySplitWsGo : List Char → List Char → List (List Char)
  | [], acc => if acc = [] then [] else [acc.reverse]
  | c :: cs, acc =>
    if c.isWhitespace then
      if acc = [] then pySplitWsGo cs [] else acc.reverse :: pySplitWsGo cs []
    else pySplitWsGo cs (c :: acc)

/-- Python `str.split()` with no argument. -/
def pySplitWs (s : List Char) : List (List Char) :=
  pySplitWsGo s []

/-- Worker for `str.split(sep)` (single-character separator, empty pieces
kept, as in Python). -/
def pySplitSepGo (sep : Char) : List Char → List Char → List (List Char)
  | [], acc => [acc.reverse]
  | c :: cs, acc =>
    if c = sep then acc.reverse :: pySplitSepGo sep cs []
    else pySplitSepGo sep cs (c :: acc)

/-- Python `str.split(sep)` for a one-character separator. -/
def pySplitSep (sep : Char) (s : List Char) : List (List Char) :=
  pySplitSepGo sep s []

/-- Python `str.lower()` (ASCII range, which is all the script compares). -/
def pyLower (s : List Char) : List Char :=
  s.map Char.toLower

/-- Number of bytes of the UTF-8 encoding of one code point. -/
def charUtf8Size (c : Char) : Nat :=
  if c.val < 128 then 1
  else if c.val < 2048 then 2
  else if c.val < 65536 then 3
  else 4

/-- `strlen_unicode` (src line 304): `len(s.encode('utf-8'))`, i.e. the UTF-8
byte length of the string, not its character count. -/
def strlen_unicode (s : List Char) : Nat :=
  (s.map charUtf8Size).sum

/-- The test `re.search(r".*\.deb$", read_line, re.IGNORECASE | re.UNICODE)
is not None` (src line 826) on a single line without newlines: the line ends
with ".deb" up to ASCII case. -/
def endsWithDeb (line : List Char) : Bool :=
  List.isSuffixOf (".deb").toList (pyLower line)

/-! ## Fixed names (src lines 139-174) -/

/-- Python `needle in haystack` on strings: contiguous substring test. -/
def py_in (needle haystack : List Char) : Bool :=
  decide (needle <:+: haystack)

/-- `CHECKSUMS_FILE = "CHECKSUMS"` (src line 174). -/
def CHECKSUMS_FILE : List Char := ("CHECKSUMS").toList

/-! ## Process-exit semantics of `main` (src lines 315-316, 743, 1181-1203)

`exit_script(n)` is `sys.exit(n)`, which raises `SystemExit(n)`.  The body of
the big `try` in `main` (src line 743) can finish normally, call
`exit_script`, or raise; the `except` clauses (src lines 1181-1199) handle
`WebFileDownloadError`, `KeyboardInterrupt` and `Exception`, and the
`finally` clause (src lines 1200-1203) runs `exit_script(0)` last.  In Python
an exception raised inside a `finally` block replaces the in-flight one. -/

/-- How a Python code region terminates: fall through, `SystemExit n`
in flight, or some other exception in flight. -/
inductive PyTerm where
  | normalRet
  | sysExit (code : Nat)
  | uncaught (name : List Char)
deriving DecidableEq

/-- `exit_script` (src lines 315-316): `sys.exit(n)` raises `SystemExit(n)`. -/
def exit_script (n : Nat) : PyTerm :=
  PyTerm.sysExit n

/-- The ways the body of the `try` block of `main` can terminate. -/
inductive BodyOutcome where
  /-- The `while repeat_download` loop finishes and the closing message is
  printed (src lines 1178-1179). -/
  | normalFinish
  /-- Some prompt or check inside the body called `exit_script(code)`:
  user abort in a prompt (code 1, src lines 438/491), empty release
  (code 0, src line 858), lock-wait abort (code 0, src line 1115). -/
  | callsExitScript (code : Nat)
  /-- A `WebFileDownloadError` was raised (src lines 773, 804). -/
  | raisesWebFileDownloadError
  /-- The user pressed Ctrl+C. -/
  | raisesKeyboardInterrupt
  /-- Any other `Exception`; `has_message` records whether the exception
  object has a usable `message` attribute (Python 2 exceptions do, Python 3
  ones in general do not). -/
  | raisesOtherException (has_message : Bool)

/-- The `except` clauses of `main` (src lines 1181-1199).  `SystemExit` is a
`BaseException`, so no clause catches it.  The `WebFileDownloadError` and
`KeyboardInterrupt` handlers end in `exit_script(1)`.  The generic
`Exception` handler evaluates `len(e.message)` first, which on Python 3
raises `AttributeError` for exceptions without a `message` attribute;
otherwise it ends in `exit_script(1)`. -/
def run_except_handlers (py3 : Bool) : BodyOutcome → PyTerm
  | BodyOutcome.normalFinish => PyTerm.normalRet
  | BodyOutcome.callsExitScript code => PyTerm.sysExit code
  | BodyOutcome.raisesWebFileDownloadError => exit_script 1
  | BodyOutcome.raisesKeyboardInterrupt => exit_script 1
  | BodyOutcome.raisesOtherException has_message =>
    if py3 && !has_message then PyTerm.uncaught (("AttributeError").toList)
    else exit_script 1

/-- Python `finally` semantics: if the finalizer terminates normally the
pending termination stands; if the finalizer raises or exits, its own
termination replaces the pending one. -/
def run_finally (pending : PyTerm) (finalizer : PyTerm) : PyTerm :=
  match finalizer with
  | PyTerm.normalRet => pending
  | t => t

/-- Termination of `main` from the start of its `try` block (src line 743):
the body outcome goes through the `except` clauses, then through the
`finally` clause, whose last statement is `exit_script(0)` (src line 1203). -/
def main_termination (py3 : Bool) (o : BodyOutcome) : PyTerm :=
  run_finally (run_except_handlers py3 o) (exit_script 0)

/-- The operating-system exit status resulting from a termination:
`SystemExit n` exits with status `n`, a normal return from `main` exits 0,
and an uncaught exception makes the interpreter exit non-zero (1). -/
def process_exit_code : PyTerm → Nat
  | PyTerm.normalRet => 0
  | PyTerm.sysExit n => n
  | PyTerm.uncaught _ => 1

/-! ## The post-download "anything downloaded?" check (src lines 1043-1047) -/

/-- The guard
`downloaded_kernel_deb_files_count == 0 or (downloaded_kernel_deb_files_count
== 1 and CHECKSUMS_FILE in user_downloaded_kernel_deb_files)` (src line
1045).  `user_downloaded_kernel_deb_files` holds full destination paths, and
`in` on a list is element-wise equality. -/
def no_kernel_files_check (files : List (List Char)) : Bool :=
  decide (files.length = 0) ||
    (decide (files.length = 1) && files.contains CHECKSUMS_FILE)

/-- The destination path the CHECKSUMS download appends on success
(src line 974): `full_download_location + os.path.sep + CHECKSUMS_FILE`. -/
def checksums_destination (full_download_location : List Char) : List Char :=
  full_download_location ++ ('/') :: CHECKSUMS_FILE

/-- A concrete session download directory of the documented shape
`<download-root>/<version>/<architecture>/<flavor>`. -/
def c1_download_dir : List Char :=
  ("/home/user/Downloads/StableUpstreamKernels/v4.9.5/amd64/generic").toList

/-! ## Manifest parser (src lines 818-835) -/

/-- The two session tables the parse loop fills: `kernel_hashes_and_files`
(a dict digest → filename, insertion-ordered, duplicate keys overwrite in
place) and `kernel_available_architectures` (first-seen order). -/
structure ParseState where
  kernel_hashes_and_files : List (List Char × List Char)
  kernel_available_architectures : List (List Char)
deriving DecidableEq

/-- Python dict assignment `d[k] = v`: an existing key keeps its position
and gets the new value, a new key is appended. -/
def dict_insert : List (List Char × List Char) → List Char → List Char →
    List (List Char × List Char)
  | [], k, v => [(k, v)]
  | (k0, v0) :: rest, k, v =>
    if k0 = k then (k, v) :: rest else (k0, v0) :: dict_insert rest k v

/-- `kernel_hash_and_file[1].split("_")[2].split(".")[0]` (src line 833):
`none` models the `IndexError` raised when the filename has fewer than three
`_`-separated segments. -/
def kernel_arch_of (kernel_file : List Char) : Option (List Char) :=
  ((pySplitSep ('_') kernel_file).drop 2).head?.map
    (fun seg => (pySplitSep ('.') seg).headD [])

/-- One iteration of the parse loop (src lines 824-835): strip the line,
keep it only if it matches `.*\.deb$` case-insensitively, split it on
whitespace, require the first token's UTF-8 byte length to be 40, store
digest → filename in the dict, then extract the architecture token and
append it if new and not `"all"`.  `Except.error` models the `IndexError`
raised by `kernel_hash_and_file[1]` on a one-token line and by
`split("_")[2]` on a short filename.  (In the source the dict is updated
before the architecture extraction; since an `IndexError` kills the session,
the partially updated dict is never observed and the error branch here
discards it.) -/
def parse_checksums_line (st : ParseState) (raw_line : List Char) :
    Except (List Char) ParseState :=
  let read_line := pyStrip raw_line
  if endsWithDeb read_line then
    match pySplitWs read_line with
    | [] => Except.error (("IndexError").toList)
    | tok0 :: rest_toks =>
      if strlen_unicode tok0 = 40 then
        match rest_toks with
        | [] => Except.error (("IndexError").toList)
        | tok1 :: _ =>
          match kernel_arch_of tok1 with
          | none => Except.error (("IndexError").toList)
          | some kernel_arch =>
            Except.ok
              { kernel_hashes_and_files :=
                  dict_insert st.kernel_hashes_and_files tok0 tok1
                kernel_available_architectures :=
                  if kernel_arch ∈ st.kernel_available_architectures ∨
                      kernel_arch = ("all").toList then
                    st.kernel_available_architectures
                  else st.kernel_available_architectures ++ [kernel_arch] }
      else Except.ok st
  else Except.ok st

/-- The parse loop folded over the lines of the manifest. -/
def build_lines : List (List Char) → ParseState → Except (List Char) ParseState
  | [], st => Except.ok st
  | line :: rest, st =>
    match parse_checksums_line st line with
    | Except.error e => Except.error e
    | Except.ok st2 => build_lines rest st2

/-- `for read_line in checksums_stream: ...` (src lines 824-835), starting
from empty tables (the lists are cleared at src lines 823/958). Iterating a
`StringIO` yields the text split at newlines. -/
def build_checksum_tables (text : List Char) : Except (List Char) ParseState :=
  build_lines (pySplitSep ('\n') text) (ParseState.mk [] [])

/-! ## Flavor derivation (src lines 539-552, 389-393, 883-893) -/

/-- Worker for `find_position_of_nth_string_occurence` (src lines 547-552):
`index` and `count` are the enumeration index and the number of occurrences
seen so far; the fall-through return value is 0. -/
def find_position_go (char : Char) (nthpos : Nat) :
    List Char → Nat → Nat → Nat
  | [], _, _ => 0
  | c :: cs, index, count =>
    if c = char then
      if count + 1 = nthpos then index
      else find_position_go char nthpos cs (index + 1) (count + 1)
    else find_position_go char nthpos cs (index + 1) count

/-- `find_position_of_nth_string_occurence` (src lines 539-552): position of
the `nthpos`-th occurrence of `char`, or 0 when there are fewer occurrences
(the empty-string early return is the same fall-through 0). -/
def find_position_of_nth_string_occurence
    (targetstr : List Char) (char : Char) (nthpos : Nat) : Nat :=
  find_position_go char nthpos targetstr 0 0

/-- `get_string_index` (src lines 389-393) for a one-character needle:
Python `str.index`, which raises `ValueError` (here `none`) when absent. -/
def get_string_index : List Char → Char → Option Nat
  | [], _ => none
  | c :: cs, needle =>
    if c = needle then some 0 else (get_string_index cs needle).map (· + 1)

/-- The flavor extraction of one filename (src lines 889-891): slice from
one past the position of the 4th `-`, then cut at the first `_`.
`Except.error` models the `ValueError` from `get_string_index` when the
slice has no `_`. -/
def extract_flavor (kernel_file : List Char) : Except (List Char) (List Char) :=
  let startpos_kernel_flavor :=
    find_position_of_nth_string_occurence kernel_file ('-') 4 + 1
  let flavor := kernel_file.drop startpos_kernel_flavor
  match get_string_index flavor ('_') with
  | none => Except.error (("ValueError").toList)
  | some i => Except.ok (flavor.take i)

/-- The flavor loop (src lines 884-893): iterate the dict in insertion
order; for each filename not containing `"_all.deb"` and containing the
chosen architecture *as a substring* (Python `in`), extract the flavor and
append it if new.  `acc` is the `kernel_available_flavors` list built so
far. -/
def derive_flavors (kernel_selected_target_arch : List Char) :
    List (List Char × List Char) → List (List Char) →
    Except (List Char) (List (List Char))
  | [], acc => Except.ok acc
  | (_, kernel_file) :: rest, acc =>
    if py_in (("_all.deb").toList) kernel_file = false ∧
        py_in kernel_selected_target_arch kernel_file = true then
      match extract_flavor kernel_file with
      | Except.error e => Except.error e
      | Except.ok flavor =>
        derive_flavors kernel_selected_target_arch rest
          (if flavor ∈ acc then acc else acc ++ [flavor])
    else derive_flavors kernel_selected_target_arch rest acc

/-! ## Fetch selection (src lines 960-974, 989-992) -/

/-- The selection test of the download loop (src lines 990-992): the file is
fetched iff it ends in `"_all.deb"`, or it ends in `"_<arch>.deb"` and
contains `"-<flavor>_"`. -/
def selected_for_download (arch flavor kernel_deb_file : List Char) : Bool :=
  List.isSuffixOf (("_all.deb").toList) kernel_deb_file ||
    (List.isSuffixOf (("_").toList ++ arch ++ (".deb").toList) kernel_deb_file &&
      py_in (("-").toList ++ flavor ++ (("_").toList)) kernel_deb_file)

/-- The package files the download loop fetches, in dict order. -/
def fetch_selection (index : List (List Char × List Char))
    (arch flavor : List Char) : List (List Char) :=
  (index.map Prod.snd).filter (selected_for_download arch flavor)

/-- Everything one batch downloads: the CHECKSUMS manifest file first
(src lines 960-974), then the selected package files (src lines 989-992). -/
def session_fetch_list (index : List (List Char × List Char))
    (arch flavor : List Char) : List (List Char) :=
  CHECKSUMS_FILE :: fetch_selection index arch flavor

/-! ## Per-file download and checksum validation (src lines 404-411, 1009-1039) -/

/-- `execute_process_wait_get_output` (src lines 404-411):
`Popen(params, stdout=PIPE).communicate()[0].split()[0].decode()` with a
catch-all `except` returning `None`.  The argument is the subprocess's
standard output; with no output, `split()[0]` raises `IndexError`, caught to
`None`. -/
def execute_process_wait_get_output (stdout : List Char) : Option (List Char) :=
  (pySplitWs stdout).head?

/-- Environment of one iteration of the download loop: whether
`download_file` returned truthy, and what the `sha1sum` subprocess printed
to stdout for the destination path. -/
structure FetchEnv where
  download_ok : Bool
  sha1_stdout : List Char

/-- One iteration of the download loop for a selected file (src lines
1009-1039): on success the destination path is appended to
`user_downloaded_kernel_deb_files`; either way the checksum validation runs,
and `local_sha1_checksum.lower()` raises `AttributeError` (modelled as
`Except.error` carrying the list as built so far) when
`execute_process_wait_get_output` returned `None`; otherwise the comparison
result is only printed. -/
def download_validate_one (env : FetchEnv) (kernel_hash_key dest : List Char)
    (downloaded : List (List Char)) :
    Except (List Char × List (List Char)) (List (List Char)) :=
  let downloaded2 := if env.download_ok then downloaded ++ [dest] else downloaded
  match execute_process_wait_get_output env.sha1_stdout with
  | none => Except.error ((("AttributeError").toList), downloaded2)
  | some local_sha1 =>
    let _file_is_valid : Bool := pyLower local_sha1 == pyLower kernel_hash_key
    Except.ok downloaded2

/-- The download loop over the selected files (src lines 989-1039), each
paired with its environment.  An uncaught exception in one iteration aborts
the whole loop (and, in the script, the session). -/
def download_deb_files_loop :
    List ((List Char × List Char) × FetchEnv) → List (List Char) →
    Except (List Char × List (List Char)) (List (List Char))
  | [], downloaded => Except.ok downloaded
  | ((kernel_hash_key, dest), env) :: rest, downloaded =>
    match download_validate_one env kernel_hash_key dest downloaded with
    | Except.error e => Except.error e
    | Except.ok d2 => download_deb_files_loop rest d2

/-! ## Install sequencing (src lines 1070-1139) -/

/-- `os.path.basename` for POSIX paths without a trailing separator. -/
def basename (path : List Char) : List Char :=
  (path.reverse.takeWhile (fun c => c ≠ ('/'))).reverse

/-- Stable insertion into a list sorted by ascending length. -/
def insert_by_len (x : List Char) : List (List Char) → List (List Char)
  | [] => [x]
  | y :: ys => if x.length < y.length then x :: y :: ys else y :: insert_by_len x ys

/-- `user_downloaded_kernel_deb_files.sort(key=len)` (src line 1070):
a stable ascending sort by length, as Python's `list.sort` with `key=len`. -/
def sort_by_len : List (List Char) → List (List Char)
  | [] => []
  | x :: xs => insert_by_len x (sort_by_len xs)

/-- One iteration of the lock-wait `while` loop (src lines 1092-1122):
either the probe finds the dpkg lock file unlocked, or it is locked and the
user answers the retry/skip/abort prompt. -/
inductive ProbeStep where
  | unlocked
  | lockedRetry
  | lockedSkip
  | lockedAbort
deriving DecidableEq

/-- How the lock-wait loop ends for one file. -/
inductive LockOutcome where
  | proceed
  | skipBatch
  | abortScript
  /-- The supplied probe script ran out: stands for the unbounded retry loop
  never reaching a decision. -/
  | outOfScript
deriving DecidableEq

/-- The lock-wait `while` loop (src lines 1092-1122), consuming probe steps
from the front of the script: unlocked breaks to the install, a locked probe
answered "No" sets `exit_installation` and breaks the batch, "Abort" calls
`exit_script(0)`, "Yes" re-polls. -/
def lock_wait : List ProbeStep → LockOutcome × List ProbeStep
  | [] => (LockOutcome.outOfScript, [])
  | ProbeStep.unlocked :: rest => (LockOutcome.proceed, rest)
  | ProbeStep.lockedRetry :: rest => lock_wait rest
  | ProbeStep.lockedSkip :: rest => (LockOutcome.skipBatch, rest)
  | ProbeStep.lockedAbort :: rest => (LockOutcome.abortScript, rest)

/-- How the install batch ends. -/
inductive BatchEnd where
  | batchDone
  | skippedBatch
  | abortedByUser
  | stuckOnLock
deriving DecidableEq

/-- The install `for` loop (src lines 1088-1139): for each downloaded file,
run the lock-wait loop; on proceed, pass the file to `dpkg -i` unless its
basename is the CHECKSUMS file (src line 1129).  Returns the ordered list of
paths passed to `dpkg` and how the batch ended.  The `dpkg` exit codes only
feed an error counter (src lines 1137-1139) and never alter the control
flow, so they are not modelled. -/
def install_batch : List (List Char) → List ProbeStep →
    List (List Char) × BatchEnd
  | [], _ => ([], BatchEnd.batchDone)
  | deb_file_name :: rest_files, steps =>
    match lock_wait steps with
    | (LockOutcome.proceed, rest_steps) =>
      let invs := if basename deb_file_name ≠ CHECKSUMS_FILE
        then [deb_file_name] else []
      let r := install_batch rest_files rest_steps
      (invs ++ r.1, r.2)
    | (LockOutcome.skipBatch, _) => ([], BatchEnd.skippedBatch)
    | (LockOutcome.abortScript, _) => ([], BatchEnd.abortedByUser)
    | (LockOutcome.outOfScript, _) => ([], BatchEnd.stuckOnLock)

/-! ## Concrete inputs used by the theorems -/

/-- 40-hex-character digests for the end-to-end manifest (C7). -/
def c7_digest_a : List Char := List.replicate 40 ('a')

def c7_digest_b : List Char := List.replicate 40 ('b')

def c7_digest_c : List Char := List.replicate 40 ('c')

/-- A malformed, 39-character digest. -/
def c7_digest_bad : List Char := List.replicate 39 ('d')

def c7f_all : List Char :=
  ("linux-headers-4.9.5-040905_4.9.5-040905.201701210432_all.deb").toList

def c7f_hdr : List Char :=
  ("linux-headers-4.9.5-040905-generic_4.9.5-040905.201701210432_amd64.deb").toList

def c7f_img : List Char :=
  ("linux-image-4.9.5-040905-generic_4.9.5-040905.201701210432_amd64.deb").toList

def c7f_bad : List Char :=
  ("linux-image-extra-4.9.5-040905-generic_4.9.5-040905.201701210432_amd64.deb").toList

/-- One CHECKSUMS record: digest, two spaces, filename. -/
def checksums_record (digest filename : List Char) : List Char :=
  digest ++ (' ') :: (' ') :: filename

/-- The C7 manifest: two 40-digest `.deb` lines for amd64/generic, one
`_all.deb` line, one malformed 39-digest line. -/
def c7_manifest : List Char :=
  checksums_record c7_digest_a c7f_all ++ ('\n') ::
    (checksums_record c7_digest_b c7f_hdr ++ ('\n') ::
      (checksums_record c7_digest_c c7f_img ++ ('\n') ::
        checksums_record c7_digest_bad c7f_bad))

/-- The ChecksumIndex the C7 manifest should produce. -/
def c7_index : List (List Char × List Char) :=
  [(c7_digest_a, c7f_all), (c7_digest_b, c7f_hdr), (c7_digest_c, c7f_img)]

/-- C4 counterexample digest: 20 copies of U+0100, character length 20 but
UTF-8 byte length 40. -/
def c4_digest : List Char := List.replicate 20 (Char.ofNat 256)

def c4_file : List Char :=
  ("linux-image-4.9.5-040905-generic_4.9.5-040905.201701210432_amd64.deb").toList

def c4_manifest : List Char := checksums_record c4_digest c4_file

/-- C5 failing input: a qualifying line whose filename has fewer than three
`_`-separated segments. -/
def c5_line_short_filename : List Char :=
  ("0123456789012345678901234567890123456789  foo.deb").toList

/-- C5 failing input: a qualifying line that is a single 40-character token
ending in `.deb`. -/
def c5_line_single_token : List Char :=
  List.replicate 36 ('a') ++ (".deb").toList

/-- C6 input: a filename with no `-` at all (so no 4th `-`). -/
def c6_file : List Char := ("linux_4.9.5_amd64.deb").toList

/-- C8 counterexample: two architectures `amd` and `amd64`, where `amd` is a
substring of `amd64`. -/
def c8_digest_1 : List Char := List.replicate 40 ('e')

def c8_digest_2 : List Char := List.replicate 40 ('f')

def c8f_amd : List Char :=
  ("linux-image-4.9.5-040905-generic_4.9.5-040905.201701210432_amd.deb").toList

def c8f_amd64 : List Char :=
  ("linux-image-4.9.5-040905-special_4.9.5-040905.201701210432_amd64.deb").toList

def c8_manifest : List Char :=
  checksums_record c8_digest_1 c8f_amd ++ ('\n') ::
    checksums_record c8_digest_2 c8f_amd64

def c8_index : List (List Char × List Char) :=
  [(c8_digest_1, c8f_amd), (c8_digest_2, c8f_amd64)]

/-- C2 concrete batch: three selected files; the second download fails and
leaves no destination file, so `sha1sum` prints nothing to stdout. -/
def c2_hash_1 : List Char := List.replicate 40 ('1')

def c2_hash_2 : List Char := List.replicate 40 ('2')

def c2_hash_3 : List Char := List.replicate 40 ('3')

def c2_path_1 : List Char := ("/d/linux-image-generic_1_amd64.deb").toList

def c2_path_2 : List Char := ("/d/linux-headers-generic_1_amd64.deb").toList

def c2_path_3 : List Char := ("/d/linux-headers_1_all.deb").toList

/-- `sha1sum` output for a file that exists: digest, two spaces, path. -/
def c2_sha1_out (digest path : List Char) : List Char :=
  digest ++ (' ') :: (' ') :: path

/-- The C2 batch: file 2's download fails with no destination file created,
so its `sha1sum` stdout is empty. -/
def c2_batch : List ((List Char × List Char) × FetchEnv) :=
  [((c2_hash_1, c2_path_1), FetchEnv.mk true (c2_sha1_out c2_hash_1 c2_path_1)),
   ((c2_hash_2, c2_path_2), FetchEnv.mk false []),
   ((c2_hash_3, c2_path_3), FetchEnv.mk true (c2_sha1_out c2_hash_3 c2_path_3))]

/-! ## Predicates used to state provenance of index entries (C4) -/

/-- The last whitespace-separated token of `line` ends with `".deb"` up to
ASCII case. -/
def last_token_ends_deb (line : List Char) : Bool :=
  match (pySplitWs line).getLast? with
  | some tok => List.isSuffixOf ((".deb").toList) (pyLower tok)
  | none => false

/-- Entry `e` of the ChecksumIndex originates from manifest line `raw_line`:
the stripped line matches the case-insensitive `.deb` test, its first token
is `e.1` and has UTF-8 byte length exactly 40, its second token is `e.2`,
and its last token ends with `".deb"` case-insensitively. -/
abbrev entry_from_line (e : List Char × List Char) (raw_line : List Char) : Prop :=
  endsWithDeb (pyStrip raw_line) = true ∧
  (pySplitWs (pyStrip raw_line)).head? = some e.1 ∧
  ((pySplitWs (pyStrip raw_line)).drop 1).head? = some e.2 ∧
  strlen_unicode e.1 = 40 ∧
  last_token_ends_deb (pyStrip raw_line) = true

/-! ## Concrete install-phase inputs (C9 witness) -/

def c9_dir : List Char := ("/d").toList

/-- A download batch: the CHECKSUMS manifest copy plus two package files of
different name lengths. -/
def c9_names : List (List Char) :=
  [CHECKSUMS_FILE,
   ("linux-headers-4.9.5_all.deb").toList,
   ("linux-image-generic_amd64.deb").toList]

/-- Lock probes: first file unlocked at once; second file locked once with a
retry answer, then unlocked; third file unlocked. -/
def c9_steps : List ProbeStep :=
  [ProbeStep.unlocked, ProbeStep.lockedRetry, ProbeStep.unlocked,
   ProbeStep.unlocked]

/-! ## Theorems -/

/-- C1.  The claim says a `DownloadManifest` that is empty, or whose only
entry is the CHECKSUMS manifest file itself, makes the session report
"no kernel files downloaded" and exit before any installation offer.  The
empty case behaves as claimed, but in the one-entry case the code compares
the bare name `"CHECKSUMS"` against full destination paths with list
membership, so the guard is false and the session walks on to the
installation offer: the code contradicts its own comment
("make sure we downloaded more than zero and one more than just the
CHECKSUMS file", src line 1043). -/
theorem C1_checksums_only_guard_misses :
    no_kernel_files_check [] = true ∧
    no_kernel_files_check [checksums_destination c1_download_dir] = false := by
  constructor
  · rfl
  · decide

/-- C3.  On `KeyboardInterrupt`, and on an unanticipated fault, the
handlers do request a non-zero exit (`exit_script(1)`), but the `finally`
block's unconditional `exit_script(0)` replaces the in-flight
`SystemExit(1)`, so the process exits with status 0 on both paths (shown
for Python 3 and Python 2 semantics, with and without a usable
`e.message`). -/
theorem C3_interrupt_and_fault_exit_zero :
    run_except_handlers true BodyOutcome.raisesKeyboardInterrupt = PyTerm.sysExit 1 ∧
    run_except_handlers true (BodyOutcome.raisesOtherException true) = PyTerm.sysExit 1 ∧
    process_exit_code (main_termination true BodyOutcome.raisesKeyboardInterrupt) = 0 ∧
    process_exit_code (main_termination false BodyOutcome.raisesKeyboardInterrupt) = 0 ∧
    process_exit_code (main_termination true (BodyOutcome.raisesOtherException false)) = 0 ∧
    process_exit_code (main_termination true (BodyOutcome.raisesOtherException true)) = 0 ∧
    process_exit_code (main_termination false (BodyOutcome.raisesOtherException false)) = 0 := by
  refine ⟨rfl, rfl, rfl, rfl, rfl, rfl, rfl⟩

/-- C10.  Once the `try` block of `main` is entered, every termination path
— normal finish, any `exit_script(code)` reached inside the body (user
abort, empty release, lock-wait abort), `WebFileDownloadError`,
`KeyboardInterrupt`, or an unanticipated exception — ends with process exit
status 0, because the `finally` clause ends in `exit_script(0)` and a
`sys.exit` inside a `finally` supersedes whatever was in flight. -/
theorem C10_finally_forces_exit_zero (py3 : Bool) (o : BodyOutcome) :
    process_exit_code (main_termination py3 o) = 0 := by
  cases o <;> cases py3 <;> rfl

/-- C5.  The claim says manifest parsing is total.  It is not: a qualifying
line whose filename has fewer than three `_`-separated segments makes
`kernel_hash_and_file[1].split("_")[2]` raise `IndexError`, and a qualifying
single-token line makes `kernel_hash_and_file[1]` raise `IndexError`; either
aborts the session through the top-level handler instead of being
ignored. -/
theorem C5_parser_raises_on_malformed_lines :
    build_checksum_tables c5_line_short_filename =
      Except.error (("IndexError").toList) ∧
    build_checksum_tables c5_line_single_token =
      Except.error (("IndexError").toList) := by
  refine ⟨rfl, rfl⟩

/-- C7.  End-to-end on the four-line manifest `c7_manifest` (two
40-digest `.deb` lines for amd64/generic, one `_all.deb` line, one
malformed 39-digest line): the index has exactly the 3 well-formed entries,
the architecture set is exactly `[amd64]`, the flavor set for amd64 is
exactly `[generic]`, and the fetch loop selects exactly the 3 package files
in addition to the CHECKSUMS manifest file. -/
theorem C7_end_to_end :
    build_checksum_tables c7_manifest =
      Except.ok (ParseState.mk c7_index [("amd64").toList]) ∧
    c7_index.length = 3 ∧
    derive_flavors (("amd64").toList) c7_index [] =
      Except.ok [("generic").toList] ∧
    fetch_selection c7_index (("amd64").toList) (("generic").toList) =
      [c7f_all, c7f_hdr, c7f_img] ∧
    session_fetch_list c7_index (("amd64").toList) (("generic").toList) =
      CHECKSUMS_FILE :: [c7f_all, c7f_hdr, c7f_img] := by
  refine ⟨rfl, rfl, rfl, rfl, rfl⟩

/-- C4 counterexample.  The retained-entry test on the first token is
`strlen_unicode`, the UTF-8 *byte* length, not the character count: a line
whose first token is 20 copies of U+0100 (20 characters, 40 UTF-8 bytes) is
retained, refuting "whose first token is exactly 40 characters long". -/
theorem C4_counterexample_bytes_not_chars :
    build_checksum_tables c4_manifest =
      Except.ok (ParseState.mk [(c4_digest, c4_file)] [("amd64").toList]) ∧
    strlen_unicode c4_digest = 40 ∧
    c4_digest.length = 20 := by
  refine ⟨rfl, by decide, by decide⟩

/-- C6 counterexample.  For `c6_file` (no `-` at all, hence no 4th `-`),
`find_position_of_nth_string_occurence` falls back to 0, but the slice then
starts at `0 + 1 = 1`, so the extracted flavor is `"inux"` — the first
character is dropped — and not the substring `"linux"` that would begin at
index 0.  This refutes "the flavor substring begins at index 0". -/
theorem C6_counterexample_starts_at_one :
    find_position_of_nth_string_occurence c6_file ('-') 4 = 0 ∧
    find_position_of_nth_string_occurence c6_file ('-') 4 + 1 = 1 ∧
    extract_flavor c6_file = Except.ok (("inux").toList) ∧
    c6_file.takeWhile (fun c => c ≠ ('_')) = ("linux").toList ∧
    (("inux").toList : List Char) ≠ ("linux").toList := by
  refine ⟨by decide, by decide, rfl, by decide, by decide⟩

/-- C8 counterexample.  On `c8_manifest`, the derived architectures are
`amd` and `amd64` (distinct).  Deriving flavors for chosen architecture
`amd` uses the Python substring test `arch in kernel_file`, which also
matches the `amd64` file, so the flavor set for `amd` is
`[generic, special]` even though `special` occurs only under architecture
segment `amd64`: the only file whose architecture segment is `amd` is
`c8f_amd`, with flavor `generic`. -/
theorem C8_counterexample_substring_leak :
    build_checksum_tables c8_manifest =
      Except.ok (ParseState.mk c8_index [("amd").toList, ("amd64").toList]) ∧
    derive_flavors (("amd").toList) c8_index [] =
      Except.ok [("generic").toList, ("special").toList] ∧
    kernel_arch_of c8f_amd = some (("amd").toList) ∧
    kernel_arch_of c8f_amd64 = some (("amd64").toList) ∧
    extract_flavor c8f_amd = Except.ok (("generic").toList) ∧
    extract_flavor c8f_amd64 = Except.ok (("special").toList) := by
  refine ⟨rfl, rfl, rfl, rfl, rfl, rfl⟩

/-- C2.  The claim says a per-file download failure never aborts the batch.
The download step itself is tolerant (the failed file is merely not
appended), but the checksum validation then runs unconditionally on the
missing destination file: `sha1sum` prints nothing to stdout,
`execute_process_wait_get_output` returns `None`, and
`local_sha1_checksum.lower()` raises `AttributeError`, aborting the batch —
the third file is never attempted.  The error carries the download list as
built so far: the failed file was indeed excluded, but the loop does not
continue. -/
theorem C2_download_failure_aborts_batch :
    download_deb_files_loop c2_batch [] =
      Except.error ((("AttributeError").toList), [c2_path_1]) := by
  rfl

/-- Helper: the position finder returns its fall-through 0 whenever the
occurrences seen so far plus those remaining stay below `nthpos`. -/
theorem find_position_go_eq_zero (char : Char) (nthpos : Nat) :
    ∀ (s : List Char) (index count : Nat),
      count + s.count char < nthpos →
      find_position_go char nthpos s index count = 0
  | [], _, _, _ => rfl
  | c :: cs, index, count, h => by
    rw [find_position_go]
    by_cases hc : c = char
    · have hcount : (c :: cs).count char = cs.count char + 1 := by
        simp [List.count_cons, hc]
      rw [hcount] at h
      rw [if_pos hc, if_neg (by omega)]
      exact find_position_go_eq_zero char nthpos cs (index + 1) (count + 1)
        (by omega)
    · have hcount : (c :: cs).count char = cs.count char := by
        simp [List.count_cons, hc]
      rw [hcount] at h
      rw [if_neg hc]
      exact find_position_go_eq_zero char nthpos cs (index + 1) count h

/-- Helper: when the needle occurs, `get_string_index` returns its first
position, and taking that many characters is taking while not the needle. -/
theorem get_string_index_takeWhile (needle : Char) :
    ∀ (l : List Char), needle ∈ l →
      ∃ i, get_string_index l needle = some i ∧
        l.take i = l.takeWhile (fun c => c ≠ needle)
  | c :: cs, hmem => by
    by_cases hc : c = needle
    · subst hc
      refine ⟨0, by rw [get_string_index, if_pos rfl], ?_⟩
      simp [List.takeWhile_cons]
    · have hmem2 : needle ∈ cs := by
        rcases List.mem_cons.mp hmem with h1 | h1
        · exact absurd h1.symm hc
        · exact h1
      obtain ⟨i, hgi, htk⟩ := get_string_index_takeWhile needle cs hmem2
      refine ⟨i + 1, ?_, ?_⟩
      · rw [get_string_index, if_neg hc, hgi]
        rfl
      · simp [List.takeWhile_cons, hc, List.take_succ_cons, htk]

/-- C6 (amended).  For a filename with no 4th `-`,
`find_position_of_nth_string_occurence` falls back to 0, so the extraction
start position is `0 + 1 = 1`: the flavor substring begins at index 1 of
the filename (its first character is dropped), and whenever the filename
contains a `_` past position 0 the extraction completes without crashing,
returning the drop-one slice cut at the first `_`. -/
theorem C6_no_fourth_dash_extraction (kernel_file : List Char)
    (h : kernel_file.count ('-') < 4) :
    find_position_of_nth_string_occurence kernel_file ('-') 4 = 0 ∧
    find_position_of_nth_string_occurence kernel_file ('-') 4 + 1 = 1 ∧
    ((('_') ∈ kernel_file.drop 1) →
      extract_flavor kernel_file =
        Except.ok ((kernel_file.drop 1).takeWhile (fun c => c ≠ ('_')))) := by
  have h1 : find_position_of_nth_string_occurence kernel_file ('-') 4 = 0 :=
    find_position_go_eq_zero ('-') 4 kernel_file 0 0 (by omega)
  refine ⟨h1, by rw [h1], ?_⟩
  intro hus
  obtain ⟨i, hgi, htk⟩ :=
    get_string_index_takeWhile ('_') (kernel_file.drop 1) hus
  have h2 : extract_flavor kernel_file =
      match get_string_index (kernel_file.drop 1) ('_') with
      | none => Except.error (("ValueError").toList)
      | some i => Except.ok ((kernel_file.drop 1).take i) := by
    unfold extract_flavor
    rw [h1]
  rw [h2, hgi]
  show Except.ok ((kernel_file.drop 1).take i) = _
  rw [htk]

/-- C6 witness: the amended statement holds at the concrete dash-free
filename `c6_file`. -/
theorem C6_no_fourth_dash_witness :
    c6_file.count ('-') < 4 ∧
    (find_position_of_nth_string_occurence c6_file ('-') 4 = 0 ∧
     find_position_of_nth_string_occurence c6_file ('-') 4 + 1 = 1 ∧
     ((('_') ∈ c6_file.drop 1) →
       extract_flavor c6_file =
         Except.ok ((c6_file.drop 1).takeWhile (fun c => c ≠ ('_'))))) :=
  ⟨by decide, C6_no_fourth_dash_extraction c6_file (by decide)⟩

/-- Helper: every flavor produced by the flavor loop either was already
accumulated or comes from an index entry whose filename passes the loop's
two tests (no `"_all.deb"` substring; chosen architecture as substring). -/
theorem derive_flavors_sound (arch : List Char) :
    ∀ (index : List (List Char × List Char)) (acc flavors : List (List Char)),
      derive_flavors arch index acc = Except.ok flavors →
      ∀ fl ∈ flavors, fl ∈ acc ∨
        ∃ e ∈ index, py_in (("_all.deb").toList) e.2 = false ∧
          py_in arch e.2 = true ∧ extract_flavor e.2 = Except.ok fl
  | [], acc, flavors, h => by
    intro fl hfl
    left
    cases h
    exact hfl
  | (d, kernel_file) :: rest, acc, flavors, h => by
    intro fl hfl
    rw [derive_flavors] at h
    by_cases hcond : py_in (("_all.deb").toList) kernel_file = false ∧
        py_in arch kernel_file = true
    · rw [if_pos hcond] at h
      cases hext : extract_flavor kernel_file with
      | error e0 => rw [hext] at h; cases h
      | ok flavor =>
        rw [hext] at h
        rcases derive_flavors_sound arch rest
            (if flavor ∈ acc then acc else acc ++ [flavor]) flavors h fl hfl
          with hacc | ⟨e, he, hc1, hc2, hc3⟩
        · by_cases hin : flavor ∈ acc
          · rw [if_pos hin] at hacc
            exact Or.inl hacc
          · rw [if_neg hin] at hacc
            rcases List.mem_append.mp hacc with h1 | h1
            · exact Or.inl h1
            · have hflav : fl = flavor := by
                rcases List.mem_cons.mp h1 with h2 | h2
                · exact h2
                · exact absurd h2 (List.not_mem_nil fl)
              right
              exact ⟨(d, kernel_file), List.mem_cons_self _ _,
                hcond.1, hcond.2, hflav ▸ hext⟩
        · exact Or.inr ⟨e, List.mem_cons_of_mem _ he, hc1, hc2, hc3⟩
    · rw [if_neg hcond] at h
      rcases derive_flavors_sound arch rest acc flavors h fl hfl
        with hacc | ⟨e, he, hc1, hc2, hc3⟩
      · exact Or.inl hacc
      · exact Or.inr ⟨e, List.mem_cons_of_mem _ he, hc1, hc2, hc3⟩

/-- C8 (amended).  The flavor set derived for a chosen architecture `arch`
contains only flavors extracted from index filenames that do not contain
`"_all.deb"` and that contain `arch` *as a substring* (the Python test
`arch in kernel_file`).  Because membership is a substring test rather than
an architecture-segment comparison, the set can include flavors found only
under a different architecture whose filenames contain `arch` (for example
`arch = "amd"` also matches every `amd64` filename; see
`C8_counterexample_substring_leak`). -/
theorem C8_flavor_set_from_substring_matches (arch : List Char)
    (index : List (List Char × List Char)) (flavors : List (List Char))
    (h : derive_flavors arch index [] = Except.ok flavors) :
    ∀ fl ∈ flavors,
      ∃ e ∈ index, py_in (("_all.deb").toList) e.2 = false ∧
        py_in arch e.2 = true ∧ extract_flavor e.2 = Except.ok fl := by
  intro fl hfl
  rcases derive_flavors_sound arch index [] flavors h fl hfl with h1 | h1
  · exact absurd h1 (List.not_mem_nil fl)
  · exact h1

/-- C8 witness: the amended statement applied to the concrete index
`c8_index` with chosen architecture `amd`. -/
theorem C8_flavor_set_witness :
    derive_flavors (("amd").toList) c8_index [] =
      Except.ok [("generic").toList, ("special").toList] ∧
    (∀ fl ∈ [("generic").toList, ("special").toList],
      ∃ e ∈ c8_index, py_in (("_all.deb").toList) e.2 = false ∧
        py_in (("amd").toList) e.2 = true ∧
        extract_flavor e.2 = Except.ok fl) :=
  ⟨rfl, C8_flavor_set_from_substring_matches (("amd").toList) c8_index
    [("generic").toList, ("special").toList] rfl⟩

/-- Helper: on a nonempty run of non-whitespace characters, the splitter
closes exactly one token: the pending accumulator followed by the run. -/
theorem pySplitWsGo_all_nonws (t : List Char) :
    ∀ (acc : List Char), t ≠ [] → (∀ c ∈ t, c.isWhitespace = false) →
      pySplitWsGo t acc = [acc.reverse ++ t] := by
  induction t with
  | nil => intro acc hne _; exact absurd rfl hne
  | cons c cs ih =>
    intro acc _ hnws
    have hc : c.isWhitespace = false := hnws c (List.mem_cons_self c cs)
    cases cs with
    | nil => simp [pySplitWsGo, hc]
    | cons d ds =>
      rw [pySplitWsGo, if_neg (by simp [hc])]
      rw [ih (c :: acc) (by simp)
        (fun x hx => hnws x (List.mem_cons_of_mem c hx))]
      simp

/-- Helper: if the input ends in a nonempty run `t` of non-whitespace
characters, the splitter's last token has `t` as a suffix. -/
theorem pySplitWsGo_getLast_suffix (t : List Char) (hne : t ≠ [])
    (hnws : ∀ c ∈ t, c.isWhitespace = false) :
    ∀ (p acc : List Char),
      ∃ tok, (pySplitWsGo (p ++ t) acc).getLast? = some tok ∧ t <:+ tok := by
  intro p
  induction p with
  | nil =>
    intro acc
    rw [List.nil_append, pySplitWsGo_all_nonws t acc hne hnws]
    exact ⟨acc.reverse ++ t, rfl, ⟨acc.reverse, rfl⟩⟩
  | cons x p ih =>
    intro acc
    rw [List.cons_append, pySplitWsGo]
    by_cases hx : x.isWhitespace = true
    · rw [if_pos hx]
      obtain ⟨tok, htok, hsuf⟩ := ih []
      by_cases hacc : acc = ([] : List Char)
      · rw [if_pos hacc]
        exact ⟨tok, htok, hsuf⟩
      · rw [if_neg hacc]
        refine ⟨tok, ?_, hsuf⟩
        cases hl : pySplitWsGo (p ++ t) [] with
        | nil => rw [hl] at htok; cases htok
        | cons y ys =>
          rw [hl] at htok
          rw [List.getLast?_cons_cons]
          exact htok
    · rw [if_neg hx]
      exact ih (x :: acc)

/-- Helper: a character whose lower-case form occurs in `".deb"` is not
whitespace. -/
theorem nonws_of_toLower_deb (c : Char)
    (h : Char.toLower c ∈ ((".deb").toList)) : c.isWhitespace = false := by
  cases hb : c.isWhitespace with
  | false => rfl
  | true =>
    exfalso
    have hd : ((c = (' ') ∨ c = ('\t')) ∨ c = ('\r')) ∨ c = ('\n') := by
      simpa [Char.isWhitespace] using hb
    rcases hd with ((h1 | h1) | h1) | h1 <;> subst h1 <;>
      exact absurd h (by decide)

/-- Helper: a line passing the case-insensitive `.deb` test has a last
whitespace-separated token, and that token itself ends with `".deb"`
case-insensitively. -/
theorem endsWithDeb_last_token (l : List Char) (h : endsWithDeb l = true) :
    last_token_ends_deb l = true := by
  have hsfx : ((".deb").toList) <:+ pyLower l :=
    List.isSuffixOf_iff_suffix.mp h
  obtain ⟨u, hu⟩ := hsfx
  have hlow : pyLower (l.drop u.length) = (".deb").toList := by
    rw [pyLower, List.map_drop]
    rw [show (l.map Char.toLower) = pyLower l from rfl, ← hu]
    exact List.drop_left u ((".deb").toList)
  have htne : l.drop u.length ≠ [] := by
    intro h0
    rw [h0] at hlow
    simp [pyLower] at hlow
  have hnws : ∀ c ∈ l.drop u.length, c.isWhitespace = false := by
    intro c hc
    apply nonws_of_toLower_deb
    rw [← hlow]
    exact List.mem_map_of_mem Char.toLower hc
  obtain ⟨tok, htok, hsuf⟩ :=
    pySplitWsGo_getLast_suffix (l.drop u.length) htne hnws (l.take u.length) []
  rw [List.take_append_drop u.length l] at htok
  have htok2 : (pySplitWs l).getLast? = some tok := htok
  unfold last_token_ends_deb
  rw [htok2]
  show List.isSuffixOf ((".deb").toList) (pyLower tok) = true
  obtain ⟨r, hr⟩ := hsuf
  refine List.isSuffixOf_iff_suffix.mpr ⟨pyLower r, ?_⟩
  rw [← hlow, ← hr]
  simp [pyLower]

/-- Helper: dict assignment adds no entries beyond the old ones and the new
pair. -/
theorem mem_dict_insert (k v : List Char) :
    ∀ (d : List (List Char × List Char)), ∀ e ∈ dict_insert d k v,
      e ∈ d ∨ e = (k, v)
  | [], e, he => by
    rw [dict_insert] at he
    rcases List.mem_cons.mp he with h1 | h1
    · exact Or.inr h1
    · exact absurd h1 (List.not_mem_nil e)
  | (k0, v0) :: rest, e, he => by
    rw [dict_insert] at he
    by_cases hk : k0 = k
    · rw [if_pos hk] at he
      rcases List.mem_cons.mp he with h1 | h1
      · exact Or.inr h1
      · exact Or.inl (List.mem_cons_of_mem _ h1)
    · rw [if_neg hk] at he
      rcases List.mem_cons.mp he with h1 | h1
      · exact Or.inl (h1 ▸ List.mem_cons_self _ _)
      · rcases mem_dict_insert k v rest e h1 with h2 | h2
        · exact Or.inl (List.mem_cons_of_mem _ h2)
        · exact Or.inr h2

/-- Helper: one parse step adds only entries originating from its own line,
and only when the line passes both retention tests. -/
theorem parse_checksums_line_sound (st st2 : ParseState) (raw_line : List Char)
    (h : parse_checksums_line st raw_line = Except.ok st2) :
    ∀ e ∈ st2.kernel_hashes_and_files,
      e ∈ st.kernel_hashes_and_files ∨ entry_from_line e raw_line := by
  unfold parse_checksums_line at h
  by_cases hdeb : endsWithDeb (pyStrip raw_line) = true
  · rw [if_pos hdeb] at h
    cases htoks : pySplitWs (pyStrip raw_line) with
    | nil => rw [htoks] at h; cases h
    | cons tok0 rest =>
      rw [htoks] at h
      dsimp only at h
      by_cases h40 : strlen_unicode tok0 = 40
      · rw [if_pos h40] at h
        cases rest with
        | nil => cases h
        | cons tok1 more =>
          dsimp only at h
          cases harch : kernel_arch_of tok1 with
          | none => rw [harch] at h; cases h
          | some arch =>
            rw [harch] at h
            intro e he
            have hst2 : st2.kernel_hashes_and_files =
                dict_insert st.kernel_hashes_and_files tok0 tok1 := by
              cases h
              rfl
            rw [hst2] at he
            rcases mem_dict_insert tok0 tok1 st.kernel_hashes_and_files e he
              with h1 | h1
            · exact Or.inl h1
            · right
              subst h1
              refine ⟨hdeb, ?_, ?_, h40, endsWithDeb_last_token _ hdeb⟩
              · rw [htoks]
                rfl
              · rw [htoks]
                rfl
      · rw [if_neg h40] at h
        cases h
        intro e he
        exact Or.inl he
  · rw [if_neg hdeb] at h
    cases h
    intro e he
    exact Or.inl he

/-- Helper: running the parse loop over a list of lines adds only entries
originating from one of those lines. -/
theorem build_lines_sound :
    ∀ (lines : List (List Char)) (st st2 : ParseState),
      build_lines lines st = Except.ok st2 →
      ∀ e ∈ st2.kernel_hashes_and_files,
        e ∈ st.kernel_hashes_and_files ∨ ∃ line ∈ lines, entry_from_line e line
  | [], st, st2, h => by
    cases h
    intro e he
    exact Or.inl he
  | line :: rest, st, st2, h => by
    rw [build_lines] at h
    cases hp : parse_checksums_line st line with
    | error e0 => rw [hp] at h; cases h
    | ok st1 =>
      rw [hp] at h
      intro e he
      rcases build_lines_sound rest st1 st2 h e he with h1 | ⟨l2, hl2, hef⟩
      · rcases parse_checksums_line_sound st st1 line hp e h1 with h2 | h2
        · exact Or.inl h2
        · exact Or.inr ⟨line, List.mem_cons_self _ _, h2⟩
      · exact Or.inr ⟨l2, List.mem_cons_of_mem _ hl2, hef⟩

/-- C4 (amended).  Every entry retained in the ChecksumIndex comes from a
manifest line whose last whitespace-separated token ends with `".deb"`
case-insensitively and whose first token — the retained digest — has UTF-8
byte length (`strlen_unicode`) exactly 40; the retained filename is the
line's second token.  (The source tests the byte length of the UTF-8
encoding, not the character count; see
`C4_counterexample_bytes_not_chars`.) -/
theorem C4_retained_entries_qualify (text : List Char) (st : ParseState)
    (h : build_checksum_tables text = Except.ok st) :
    ∀ e ∈ st.kernel_hashes_and_files,
      ∃ line ∈ pySplitSep ('\n') text, entry_from_line e line := by
  intro e he
  rcases build_lines_sound (pySplitSep ('\n') text) (ParseState.mk [] []) st
      h e he with h1 | h1
  · exact absurd h1 (List.not_mem_nil e)
  · exact h1

/-- C4 witness: the amended statement applied to the one-line manifest
`c4_manifest`. -/
theorem C4_retained_entries_witness :
    build_checksum_tables c4_manifest =
      Except.ok (ParseState.mk [(c4_digest, c4_file)] [("amd64").toList]) ∧
    (∀ e ∈ [(c4_digest, c4_file)],
      ∃ line ∈ pySplitSep ('\n') c4_manifest, entry_from_line e line) :=
  ⟨rfl, C4_retained_entries_qualify c4_manifest
    (ParseState.mk [(c4_digest, c4_file)] [("amd64").toList]) rfl⟩

/-- Helper: inserting into the length-sorted list permutes consing. -/
theorem insert_by_len_perm (x : List Char) :
    ∀ (l : List (List Char)), (insert_by_len x l).Perm (x :: l)
  | [] => List.Perm.refl _
  | y :: ys => by
    rw [insert_by_len]
    by_cases hxy : x.length < y.length
    · rw [if_pos hxy]
    · rw [if_neg hxy]
      exact ((insert_by_len_perm x ys).cons y).trans (List.Perm.swap x y ys)

/-- Helper: the length sort is a permutation of its input. -/
theorem sort_by_len_perm : ∀ (l : List (List Char)), (sort_by_len l).Perm l
  | [] => List.Perm.refl _
  | x :: xs =>
    (insert_by_len_perm x (sort_by_len xs)).trans ((sort_by_len_perm xs).cons x)

/-- Helper: insertion preserves ascending-length ordering. -/
theorem insert_by_len_pairwise (x : List Char) :
    ∀ (l : List (List Char)),
      List.Pairwise (fun a b => a.length ≤ b.length) l →
      List.Pairwise (fun a b => a.length ≤ b.length) (insert_by_len x l)
  | [], _ => by simp [insert_by_len]
  | y :: ys, hp => by
    rw [List.pairwise_cons] at hp
    obtain ⟨hy, hys⟩ := hp
    rw [insert_by_len]
    by_cases hxy : x.length < y.length
    · rw [if_pos hxy]
      refine List.pairwise_cons.mpr ⟨?_, List.pairwise_cons.mpr ⟨hy, hys⟩⟩
      intro b hb
      rcases List.mem_cons.mp hb with h1 | h1
      · subst h1
        exact Nat.le_of_lt hxy
      · exact Nat.le_trans (Nat.le_of_lt hxy) (hy b h1)
    · rw [if_neg hxy]
      refine List.pairwise_cons.mpr ⟨?_, insert_by_len_pairwise x ys hys⟩
      intro b hb
      have hb2 : b ∈ x :: ys := (insert_by_len_perm x ys).mem_iff.mp hb
      rcases List.mem_cons.mp hb2 with h1 | h1
      · subst h1
        exact Nat.le_of_not_lt hxy
      · exact hy b h1

/-- Helper: the length sort produces an ascending-length list. -/
theorem sort_by_len_pairwise : ∀ (l : List (List Char)),
    List.Pairwise (fun a b => a.length ≤ b.length) (sort_by_len l)
  | [] => List.Pairwise.nil
  | x :: xs => insert_by_len_pairwise x (sort_by_len xs) (sort_by_len_pairwise xs)

/-- Helper: the files passed to `dpkg` are a sublist (in order) of the files
the batch iterates over. -/
theorem install_batch_sublist :
    ∀ (files : List (List Char)) (steps : List ProbeStep),
      List.Sublist (install_batch files steps).1 files
  | [], _ => by simp [install_batch]
  | f :: fs, steps => by
    rw [install_batch]
    rcases hlw : lock_wait steps with ⟨outcome, rest⟩
    cases outcome with
    | proceed =>
      dsimp only
      by_cases hcf : basename f ≠ CHECKSUMS_FILE
      · rw [if_pos hcf]
        exact (install_batch_sublist fs rest).cons₂ f
      · rw [if_neg hcf]
        exact (install_batch_sublist fs rest).cons f
    | skipBatch => exact List.nil_sublist _
    | abortScript => exact List.nil_sublist _
    | outOfScript => exact List.nil_sublist _

/-- Helper: no file whose basename is the CHECKSUMS manifest name is ever
passed to `dpkg`. -/
theorem install_batch_no_checksums :
    ∀ (files : List (List Char)) (steps : List ProbeStep),
      ∀ g ∈ (install_batch files steps).1, basename g ≠ CHECKSUMS_FILE
  | [], _ => by simp [install_batch]
  | f :: fs, steps => by
    rw [install_batch]
    rcases hlw : lock_wait steps with ⟨outcome, rest⟩
    cases outcome with
    | proceed =>
      dsimp only
      intro g hg
      rcases List.mem_append.mp hg with h1 | h1
      · by_cases hcf : basename f ≠ CHECKSUMS_FILE
        · rw [if_pos hcf] at h1
          rcases List.mem_cons.mp h1 with h2 | h2
          · subst h2
            exact hcf
          · exact absurd h2 (List.not_mem_nil g)
        · rw [if_neg hcf] at h1
          exact absurd h1 (List.not_mem_nil g)
      · exact install_batch_no_checksums fs rest g h1
    | skipBatch => intro g hg; exact absurd hg (List.not_mem_nil g)
    | abortScript => intro g hg; exact absurd hg (List.not_mem_nil g)
    | outOfScript => intro g hg; exact absurd hg (List.not_mem_nil g)

/-- Helper: the basename of `dir ++ "/" ++ n` is `n` when the filename `n`
contains no separator. -/
theorem basename_dir_append (dir n : List Char) (h : ('/') ∉ n) :
    basename (dir ++ ('/') :: n) = n := by
  unfold basename
  rw [List.reverse_append, List.reverse_cons, List.append_assoc]
  have hall : ∀ a ∈ n.reverse, (fun c => decide (c ≠ ('/'))) a := by
    intro a ha
    simp only [decide_eq_true_eq]
    intro heq
    exact h (heq ▸ List.mem_reverse.mp ha)
  rw [List.takeWhile_append_of_pos hall]
  simp [List.takeWhile_cons]

/-- C9.  All destination paths of one batch share the download directory
prefix `dir` (src lines 909-912 and 994).  Before installation the list is
sorted ascending by length (`sort(key=len)`, src line 1070), so: the sorted
list is a permutation of the DownloadManifest in ascending length order; the
ordered list of files actually passed to `dpkg -i`, under any sequence of
lock probes and user answers, never contains a file whose basename is the
CHECKSUMS manifest file, and its basenames appear in ascending filename
length — in particular the shortest-named kernel file is installed first. -/
theorem C9_install_order (dir : List Char) (names : List (List Char))
    (steps : List ProbeStep) (hsep : ∀ n ∈ names, ('/') ∉ n) :
    (sort_by_len (names.map (fun n => dir ++ ('/') :: n))).Perm
      (names.map (fun n => dir ++ ('/') :: n)) ∧
    List.Pairwise (fun a b => a.length ≤ b.length)
      (sort_by_len (names.map (fun n => dir ++ ('/') :: n))) ∧
    (∀ g ∈ (install_batch
        (sort_by_len (names.map (fun n => dir ++ ('/') :: n))) steps).1,
      basename g ≠ CHECKSUMS_FILE) ∧
    List.Pairwise (fun a b => (basename a).length ≤ (basename b).length)
      ((install_batch
        (sort_by_len (names.map (fun n => dir ++ ('/') :: n))) steps).1) := by
  refine ⟨sort_by_len_perm _, sort_by_len_pairwise _,
    install_batch_no_checksums _ _, ?_⟩
  have hsub :=
    install_batch_sublist (sort_by_len (names.map (fun n => dir ++ ('/') :: n)))
      steps
  have hpw : List.Pairwise (fun a b => a.length ≤ b.length)
      ((install_batch
        (sort_by_len (names.map (fun n => dir ++ ('/') :: n))) steps).1) :=
    List.Pairwise.sublist hsub (sort_by_len_pairwise _)
  refine hpw.imp_of_mem ?_
  intro a b ha hb hab
  have hma : a ∈ names.map (fun n => dir ++ ('/') :: n) :=
    (sort_by_len_perm _).mem_iff.mp (hsub.subset ha)
  have hmb : b ∈ names.map (fun n => dir ++ ('/') :: n) :=
    (sort_by_len_perm _).mem_iff.mp (hsub.subset hb)
  rcases List.mem_map.mp hma with ⟨na, hna, rfl⟩
  rcases List.mem_map.mp hmb with ⟨nb, hnb, rfl⟩
  rw [basename_dir_append dir na (hsep na hna),
    basename_dir_append dir nb (hsep nb hnb)]
  simp only [List.length_append, List.length_cons] at hab
  omega

/-- C9 witness: the install-order statement at a concrete batch (CHECKSUMS
plus two package files) with a lock script that is locked once and retried. -/
theorem C9_install_order_witness :
    (∀ n ∈ c9_names, ('/') ∉ n) ∧
    ((sort_by_len (c9_names.map (fun n => c9_dir ++ ('/') :: n))).Perm
      (c9_names.map (fun n => c9_dir ++ ('/') :: n)) ∧
    List.Pairwise (fun a b => a.length ≤ b.length)
      (sort_by_len (c9_names.map (fun n => c9_dir ++ ('/') :: n))) ∧
    (∀ g ∈ (install_batch
        (sort_by_len (c9_names.map (fun n => c9_dir ++ ('/') :: n))) c9_steps).1,
      basename g ≠ CHECKSUMS_FILE) ∧
    List.Pairwise (fun a b => (basename a).length ≤ (basename b).length)
      ((install_batch
        (sort_by_len (c9_names.map (fun n => c9_dir ++ ('/') :: n))) c9_steps).1)) :=
  ⟨by decide, C9_install_order c9_dir c9_names c9_steps (by decide)⟩
